import Mathlib

/-!
Shallow embedding of the PX4 differential-rover guidance component
(`src/modules/rover_differential/RoverDifferentialGuidance/RoverDifferentialGuidance.hpp`).

The repository snapshot contains only the class header: the enum, the struct
types, the member-function declarations, the member variables, the compile-time
constant `TURN_MAX_VELOCITY` and the parameter list are translated from that
header.  The bodies of `computeGuidance` and `updateWaypoints` are not part of
the snapshot, so their behaviour is modelled from the specification
(section 4 of the design document); every such definition carries a doc
comment starting with `Modelled from the spec:`.

Single-precision floats are modelled as rationals (ℚ); the float literal
`0.2f` is modelled as the rational `1/5`.  Angle wrapping is parametrised by a
positive rational `pi` standing for the real π, and the real-valued
target-bearing geometry (atan2 / lookahead intersection), which the
specification leaves open, is abstracted as a function argument.
-/

/-- Enum class for the different states of guidance (header lines 64-68). -/
inductive GuidanceState where
  | SPOT_TURNING -- The vehicle is currently turning on the spot.
  | DRIVING      -- The vehicle is currently driving.
  | STOPPED      -- The vehicle is stopped.
deriving DecidableEq

/-- The cycle output struct `differential_setpoint` (header lines 83-87),
with the member initializers of the header as default values. -/
structure differential_setpoint where
  throttle : ℚ := 0
  yaw_rate : ℚ := 0
  closed_loop_yaw_rate : Bool := false
deriving DecidableEq

/-- The configuration parameters of the guidance component
(header lines 148-162), one rational per `ParamFloat`. -/
structure GuidanceParams where
  p_gain_heading : ℚ
  i_gain_heading : ℚ
  p_gain_speed : ℚ
  i_gain_speed : ℚ
  max_speed : ℚ
  nav_acc_rad : ℚ
  max_jerk : ℚ
  max_accel : ℚ
  miss_spd_def : ℚ
  max_yaw_rate : ℚ
  trans_trn_drv : ℚ -- turn-to-drive heading threshold (RD_TRANS_TRN_DRV)
  trans_drv_trn : ℚ -- drive-to-turn heading threshold (RD_TRANS_DRV_TRN)
deriving DecidableEq

/-- Velocity threshold for starting the spot turn, in m/s:
`static constexpr float TURN_MAX_VELOCITY = 0.2f` (header line 145). -/
def TURN_MAX_VELOCITY : ℚ := 1/5

/-- The names of the `DEFINE_PARAMETERS` entries of the guidance component
(header lines 148-162). -/
def guidance_parameter_names : List String :=
  ["RD_HEADING_P", "RD_HEADING_I", "RD_SPEED_P", "RD_SPEED_I",
   "RD_MAX_SPEED", "NAV_ACC_RAD", "RD_MAX_JERK", "RD_MAX_ACCEL",
   "RD_MISS_SPD_DEF", "RD_MAX_YAW_RATE", "RD_TRANS_TRN_DRV", "RD_TRANS_DRV_TRN"]

/-- The parameter list of the declared signature
`computeGuidance(float yaw, float actual_speed, int nav_state)`
(header lines 96-97). -/
def computeGuidance_declared_params : List String :=
  ["yaw", "actual_speed", "nav_state"]

/-- The `@param` entries of the doc comment of `computeGuidance`
(header lines 89-95). -/
def computeGuidance_doc_params : List String :=
  ["yaw", "actual_speed", "dt", "nav_state"]

/-- The private member variables of `RoverDifferentialGuidance`
(header lines 122-142), in declaration order. -/
def member_variables : List String :=
  ["_global_ned_proj_ref", "_currentState", "_pure_pursuit", "_timestamp",
   "_max_yaw_rate", "_curr_pos", "_curr_pos_ned", "_prev_wp", "_prev_wp_ned",
   "_curr_wp", "_curr_wp_ned", "_next_wp", "_home_position",
   "_pid_heading", "_pid_throttle"]

/-- Saturation helper, the model of PX4 `math::constrain(x, lo, hi)`. -/
def constrain (x lo hi : ℚ) : ℚ := max lo (min x hi)

/-- Modelled from the spec: normalization of an angle to the half-open
interval (−pi, pi] ("heading error is always normalized to (−π, π]"); the
float implementation (`matrix::wrap_pi`) is not part of the snapshot.
`pi` is the rational parameter standing for the real π. -/
def wrapToPi (pi x : ℚ) : ℚ := x - 2 * pi * ⌈(x - pi) / (2 * pi)⌉

theorem constrain_le {lo hi : ℚ} (x : ℚ) (h : lo ≤ hi) :
    lo ≤ constrain x lo hi ∧ constrain x lo hi ≤ hi := by
  unfold constrain
  constructor
  · exact le_max_left _ _
  · exact max_le h (min_le_right _ _)

theorem abs_constrain (x a : ℚ) (ha : 0 ≤ a) : |constrain x (-a) a| ≤ a := by
  have h := constrain_le x (neg_le_self ha)
  exact abs_le.mpr ⟨h.1, h.2⟩

theorem wrapToPi_mem {pi : ℚ} (x : ℚ) (hpi : 0 < pi) :
    -pi < wrapToPi pi x ∧ wrapToPi pi x ≤ pi := by
  have h2pi : (0:ℚ) < 2 * pi := by linarith
  have hne : (2 * pi : ℚ) ≠ 0 := ne_of_gt h2pi
  have hcancel : (x - pi) / (2 * pi) * (2 * pi) = x - pi := div_mul_cancel₀ _ hne
  have hle : (x - pi) / (2 * pi) ≤ (⌈(x - pi) / (2 * pi)⌉ : ℚ) := Int.le_ceil _
  have hlt : (⌈(x - pi) / (2 * pi)⌉ : ℚ) < (x - pi) / (2 * pi) + 1 := Int.ceil_lt_add_one _
  have h2 : x - pi ≤ (⌈(x - pi) / (2 * pi)⌉ : ℚ) * (2 * pi) := by
    have := mul_le_mul_of_nonneg_right hle (le_of_lt h2pi)
    linarith [hcancel]
  have h1 : (⌈(x - pi) / (2 * pi)⌉ : ℚ) * (2 * pi) < x + pi := by
    have := mul_lt_mul_of_pos_right hlt h2pi
    nlinarith [hcancel]
  unfold wrapToPi
  constructor <;> nlinarith [h1, h2]

/-- A geodetic point (latitude, longitude), the model of `Vector2d` used for
global coordinates in the header. -/
structure GeoPoint where
  lat : ℚ
  lon : ℚ
deriving DecidableEq

/-- The waypoint-related member variables of the class (header lines 130-138).
Note that the header provides NED (planar) members only for the current
position and the previous/current waypoints; `_next_wp` and `_home_position`
are stored as geodetic `Vector2d` only. -/
structure Waypoints where
  curr_pos : GeoPoint
  curr_pos_ned : ℚ × ℚ
  prev_wp : GeoPoint
  prev_wp_ned : ℚ × ℚ
  curr_wp : GeoPoint
  curr_wp_ned : ℚ × ℚ
  next_wp : GeoPoint
  home_position : GeoPoint
deriving DecidableEq

/-- The fresh per-cycle geodetic inputs of a waypoint refresh: the
previous/current/next waypoint (each possibly unset or invalid, modelled by
`Option`), the home position and the vehicle position. -/
structure WaypointInputs where
  prev : Option GeoPoint
  curr : Option GeoPoint
  next : Option GeoPoint
  home : GeoPoint
  vehicle_pos : GeoPoint
deriving DecidableEq

/-- Modelled from the spec: the body of `updateWaypoints` is not part of the
snapshot.  "On each refresh, previous/current/next/home/vehicle-position are
(re)projected"; "if a waypoint is unset or contains invalid values, it is
substituted with the vehicle's current position".  The class state (the
authoritative header) stores NED coordinates only for the vehicle position and
the previous/current waypoints, so only those three are projected; the
tangent-plane projection is the abstract argument `proj`. -/
def updateWaypoints (proj : GeoPoint → ℚ × ℚ) (inp : WaypointInputs) : Waypoints :=
  let prevG := inp.prev.getD inp.vehicle_pos
  let currG := inp.curr.getD inp.vehicle_pos
  let nextG := inp.next.getD inp.vehicle_pos
  { curr_pos := inp.vehicle_pos
    curr_pos_ned := proj inp.vehicle_pos
    prev_wp := prevG
    prev_wp_ned := proj prevG
    curr_wp := currG
    curr_wp_ned := proj currG
    next_wp := nextG
    home_position := inp.home }

/-- Modelled from the spec: the heading error of the pure-pursuit step
(the `PurePursuit` library body is not part of the snapshot).  "Heading
error = wrap_to_(−π,π] of (target bearing − current heading)"; "if the segment
has zero length (both endpoints equal) ... heading error becomes 0 — the
planner must not divide by zero on a degenerate segment".  The real-valued
target-bearing geometry (lookahead intersection and atan2), which the spec
leaves open, is the abstract argument `targetBearing` taking the previous
waypoint, the current waypoint and the vehicle position (all NED). -/
def purePursuitHeadingError (pi : ℚ) (targetBearing : ℚ × ℚ → ℚ × ℚ → ℚ × ℚ → ℚ)
    (prevNed currNed posNed : ℚ × ℚ) (yaw : ℚ) : ℚ :=
  if prevNed = currNed then 0
  else wrapToPi pi (targetBearing prevNed currNed posNed - yaw)

/-- Modelled from the spec: state of one discrete-time PI controller
("integrator accumulator, last error"); the `PID_t` library body is not part
of the snapshot. -/
structure PIState where
  integral : ℚ := 0
  last_error : ℚ := 0
deriving DecidableEq

/-- Modelled from the spec: one cycle of a PI controller.  "error = setpoint −
measurement; output = P·error + I·integral; integral accumulates error·dt but
is frozen (anti-windup) whenever the unclamped output would exceed the
actuator's saturation limit ... Output is then clamped" to `[-sat, sat]`.
Returns (clamped output, new controller state). -/
def pi_step (P I sat dt err : ℚ) (st : PIState) : ℚ × PIState :=
  let unclamped := P * err + I * st.integral
  let integ := if sat < |unclamped| then st.integral else st.integral + err * dt
  (constrain unclamped (-sat) sat, { integral := integ, last_error := err })

/-- Modelled from the spec: the speed-profile state owned by the velocity
profile generator, "{commanded_speed, commanded_accel} ... persists across
cycles". -/
structure SpeedProfile where
  speed : ℚ := 0
  accel : ℚ := 0
deriving DecidableEq

/-- Modelled from the spec: one cycle of the jerk- and acceleration-bounded
velocity profile generator.  "Compute the acceleration needed to reach the
target speed, clamp it to ±max_accel, clamp its rate of change (relative to
the previous cycle's acceleration) to ±max_jerk·dt, integrate to update
commanded acceleration, then integrate commanded acceleration into commanded
speed"; "commanded speed must never be negative for this vehicle class". -/
def speedProfileStep (max_accel max_jerk dt target : ℚ) (sp : SpeedProfile) : SpeedProfile :=
  let a_des := constrain ((target - sp.speed) / dt) (-max_accel) max_accel
  let a_new := constrain a_des (sp.accel - max_jerk * dt) (sp.accel + max_jerk * dt)
  { speed := max 0 (sp.speed + a_new * dt), accel := a_new }

/-- Modelled from the spec: the curvature-derated speed, "a curvature-derated
speed that shrinks as heading error/path curvature grows"; the exact formula
is left open by the spec, modelled as `max_speed / (1 + |heading error|)`. -/
def deratedSpeed (max_speed heading_error : ℚ) : ℚ := max_speed / (1 + |heading_error|)

/-- Modelled from the spec: the target speed of the velocity profile, "the
lesser of the mission-supplied speed, the configured maximum speed, and a
curvature-derated speed"; a missing per-leg mission speed falls back to the
default mission speed parameter.  Outside DRIVING the profile ramps toward
zero (in SPOT_TURNING and STOPPED the throttle policy commands no forward
motion). -/
def targetSpeed (p : GuidanceParams) (heading_error : ℚ) (mission_speed : Option ℚ)
    (s : GuidanceState) : ℚ :=
  match s with
  | .DRIVING => min (min (mission_speed.getD p.miss_spd_def) p.max_speed)
      (deratedSpeed p.max_speed heading_error)
  | _ => 0

/-- Modelled from the spec: the transition function of the guidance state
machine (section 4.5).  Any state falls to STOPPED when the navigation mode is
not an active guided mission or no valid waypoint data is available; DRIVING
breaks into SPOT_TURNING when |heading error| reaches the drive-to-turn
threshold and the actual speed is below `TURN_MAX_VELOCITY`; SPOT_TURNING
returns to DRIVING when |heading error| is at most the turn-to-drive
threshold; STOPPED resumes DRIVING when mode and data recover. -/
def stateTransition (p : GuidanceParams) (s : GuidanceState) (heading_error speed : ℚ)
    (mission_active valid_wp : Bool) : GuidanceState :=
  if mission_active && valid_wp then
    match s with
    | .DRIVING =>
        if p.trans_drv_trn ≤ |heading_error| ∧ speed < TURN_MAX_VELOCITY then .SPOT_TURNING
        else .DRIVING
    | .SPOT_TURNING =>
        if |heading_error| ≤ p.trans_trn_drv then .DRIVING else .SPOT_TURNING
    | .STOPPED => .DRIVING
  else .STOPPED

/-- The persistent mutable state of one guidance instance: the state-machine
state (header member `_currentState`, initialized to DRIVING), the
speed-profile state and the two controller states (`_pid_heading`,
`_pid_throttle`).  The defaults are the initial values. -/
structure GuidanceSysState where
  currentState : GuidanceState := .DRIVING
  profile : SpeedProfile := {}
  pid_heading : PIState := {}
  pid_throttle : PIState := {}
deriving DecidableEq

/-- The initial state of a guidance instance (header member initializers,
in particular `_currentState{GuidanceState::DRIVING}`). -/
def initialState : GuidanceSysState := {}

/-- The per-cycle inputs of the guidance computation: yaw and actual speed
(declared parameters), the elapsed time dt, the navigation-mode signal
(modelled as the Boolean "actively executing guided mission", the meaning the
spec assigns to `nav_state`), waypoint validity, and the optional
mission-supplied speed of the active leg. -/
structure GuidanceInput where
  yaw : ℚ
  actual_speed : ℚ
  dt : ℚ
  mission_active : Bool
  valid_waypoints : Bool
  mission_speed : Option ℚ := none
deriving DecidableEq

/-- The status record published each cycle: "{current GuidanceState, heading
error, commanded speed}" (the timestamp field is metadata stamped by the
caller's clock and carries no guidance content). -/
structure GuidanceStatus where
  state : GuidanceState
  heading_error : ℚ
  commanded_speed : ℚ
deriving DecidableEq

/-- Modelled from the spec: the per-state output policy (section 4.5).
STOPPED: all zero, open loop.  SPOT_TURNING: zero throttle, yaw rate from the
heading PI controller saturated at ±max_yaw_rate, closed loop.  DRIVING:
throttle from the speed PI controller saturated at [-1, 1] tracking the
commanded speed, open-loop yaw rate proportional to heading error and the
commanded forward speed, capped at ±max_yaw_rate.  Returns the setpoint and
the updated heading/throttle controller states. -/
def guidanceOutput (p : GuidanceParams) (s : GuidanceState) (heading_error dt actual_speed : ℚ)
    (prof : SpeedProfile) (pid_h pid_t : PIState) :
    differential_setpoint × PIState × PIState :=
  match s with
  | .STOPPED =>
      ({ throttle := 0, yaw_rate := 0, closed_loop_yaw_rate := false }, pid_h, pid_t)
  | .SPOT_TURNING =>
      let r := pi_step p.p_gain_heading p.i_gain_heading p.max_yaw_rate dt heading_error pid_h
      ({ throttle := 0, yaw_rate := r.1, closed_loop_yaw_rate := true }, r.2, pid_t)
  | .DRIVING =>
      let r := pi_step p.p_gain_speed p.i_gain_speed 1 dt (prof.speed - actual_speed) pid_t
      ({ throttle := r.1,
         yaw_rate := constrain (prof.speed * heading_error) (-p.max_yaw_rate) p.max_yaw_rate,
         closed_loop_yaw_rate := false }, pid_h, r.2)

/-- Modelled from the spec: the per-cycle guidance computation (the body of
`computeGuidance` is not part of the snapshot; section 4.6).  (1) the caller
has refreshed `wpts`; (2) run the pure-pursuit step for the heading error;
(3) evaluate the state-machine transition; (4) compute the active state's
output via the velocity profile and the controllers; (5) return the clamped
setpoint; (6) fill the status record.  `pi` and `targetBearing` are the
real-valued geometry abstractions described above. -/
def computeGuidance (pi : ℚ) (targetBearing : ℚ × ℚ → ℚ × ℚ → ℚ × ℚ → ℚ)
    (p : GuidanceParams) (wpts : Waypoints) (s : GuidanceSysState) (inp : GuidanceInput) :
    GuidanceSysState × differential_setpoint × GuidanceStatus :=
  let err := purePursuitHeadingError pi targetBearing wpts.prev_wp_ned wpts.curr_wp_ned
    wpts.curr_pos_ned inp.yaw
  let st := stateTransition p s.currentState err inp.actual_speed inp.mission_active
    inp.valid_waypoints
  let prof := speedProfileStep p.max_accel p.max_jerk inp.dt
    (targetSpeed p err inp.mission_speed st) s.profile
  let out := guidanceOutput p st err inp.dt inp.actual_speed prof s.pid_heading s.pid_throttle
  ({ currentState := st, profile := prof, pid_heading := out.2.1, pid_throttle := out.2.2 },
   out.1,
   { state := st, heading_error := err, commanded_speed := prof.speed })

/-- A whole run of the guidance instance: fold the per-cycle computation over
a list of cycle inputs, starting from a given state. -/
def runGuidance (pi : ℚ) (targetBearing : ℚ × ℚ → ℚ × ℚ → ℚ × ℚ → ℚ)
    (p : GuidanceParams) (wpts : Waypoints) (s : GuidanceSysState)
    (trace : List GuidanceInput) : GuidanceSysState :=
  trace.foldl (fun st i => (computeGuidance pi targetBearing p wpts st i).1) s

/-- Sample configuration used by the concrete witnesses. -/
def sampleParams : GuidanceParams :=
  { p_gain_heading := 1, i_gain_heading := 0, p_gain_speed := 1, i_gain_speed := 0,
    max_speed := 5, nav_acc_rad := 1/2, max_jerk := 3, max_accel := 2,
    miss_spd_def := 3, max_yaw_rate := 2, trans_trn_drv := 1/10, trans_drv_trn := 1/2 }

/-- Sample waypoint state with a non-degenerate active segment. -/
def sampleWaypoints : Waypoints :=
  { curr_pos := ⟨0, 0⟩, curr_pos_ned := (0, 0), prev_wp := ⟨0, 0⟩, prev_wp_ned := (0, 0),
    curr_wp := ⟨1, 0⟩, curr_wp_ned := (10, 0), next_wp := ⟨1, 1⟩, home_position := ⟨0, 0⟩ }

/-- Sample waypoint state with a degenerate (zero-length) active segment. -/
def sampleWaypointsDegenerate : Waypoints :=
  { curr_pos := ⟨0, 0⟩, curr_pos_ned := (5, 5), prev_wp := ⟨0, 0⟩, prev_wp_ned := (5, 5),
    curr_wp := ⟨0, 0⟩, curr_wp_ned := (5, 5), next_wp := ⟨0, 0⟩, home_position := ⟨0, 0⟩ }

/-- Sample abstract bearing geometry returning a constant bearing of 3 rad. -/
def sampleBearing : ℚ × ℚ → ℚ × ℚ → ℚ × ℚ → ℚ := fun _ _ _ => 3

/-- A second sample bearing geometry, used to exhibit independence from the
geometry on degenerate segments. -/
def sampleBearingAlt : ℚ × ℚ → ℚ × ℚ → ℚ × ℚ → ℚ := fun _ _ _ => 100

/-- Sample cycle input during an active mission. -/
def sampleInput : GuidanceInput :=
  { yaw := 0, actual_speed := 0, dt := 1/10, mission_active := true, valid_waypoints := true }

/-- Sample cycle input with an inactive navigation mode. -/
def sampleInputStopped : GuidanceInput :=
  { yaw := 0, actual_speed := 0, dt := 1/10, mission_active := false, valid_waypoints := true }

theorem constrain_eq (x lo hi : ℚ) : constrain x lo hi = max lo (min x hi) := rfl

theorem pi_step_fst (P I sat dt err : ℚ) (st : PIState) :
    (pi_step P I sat dt err st).1 = constrain (P * err + I * st.integral) (-sat) sat := rfl

theorem speedProfileStep_accel_eq (A J dt target : ℚ) (sp : SpeedProfile) :
    (speedProfileStep A J dt target sp).accel
      = constrain (constrain ((target - sp.speed) / dt) (-A) A)
          (sp.accel - J * dt) (sp.accel + J * dt) := rfl

theorem speedProfileStep_accel_bound {A J dt : ℚ} (target : ℚ) (hA : 0 ≤ A) (hJ : 0 ≤ J)
    (hdt : 0 ≤ dt) (sp : SpeedProfile) (hsp : |sp.accel| ≤ A) :
    |(speedProfileStep A J dt target sp).accel| ≤ A := by
  have hJdt : 0 ≤ J * dt := mul_nonneg hJ hdt
  have hdes := abs_constrain ((target - sp.speed) / dt) A hA
  rw [speedProfileStep_accel_eq, constrain_eq, abs_le]
  rw [abs_le] at hsp hdes
  constructor
  · exact le_trans (le_min hdes.1 (by linarith)) (le_max_right _ _)
  · exact max_le (by linarith) (le_trans (min_le_left _ _) hdes.2)

theorem speedProfileStep_jerk {A J dt : ℚ} (target : ℚ) (hJ : 0 ≤ J) (hdt : 0 ≤ dt)
    (sp : SpeedProfile) :
    |(speedProfileStep A J dt target sp).accel - sp.accel| ≤ J * dt := by
  have hJdt : 0 ≤ J * dt := mul_nonneg hJ hdt
  have h := constrain_le (constrain ((target - sp.speed) / dt) (-A) A)
    (show sp.accel - J * dt ≤ sp.accel + J * dt by linarith)
  rw [speedProfileStep_accel_eq, abs_le]
  exact ⟨by linarith [h.1], by linarith [h.2]⟩

theorem speedProfileStep_speed_nonneg (A J dt target : ℚ) (sp : SpeedProfile) :
    0 ≤ (speedProfileStep A J dt target sp).speed :=
  le_max_left 0 _

theorem computeGuidance_profile (pi : ℚ) (tb : ℚ × ℚ → ℚ × ℚ → ℚ × ℚ → ℚ)
    (p : GuidanceParams) (wpts : Waypoints) (s : GuidanceSysState) (inp : GuidanceInput) :
    ((computeGuidance pi tb p wpts s inp).1).profile
      = speedProfileStep p.max_accel p.max_jerk inp.dt
          (targetSpeed p
            (purePursuitHeadingError pi tb wpts.prev_wp_ned wpts.curr_wp_ned
              wpts.curr_pos_ned inp.yaw)
            inp.mission_speed
            (stateTransition p s.currentState
              (purePursuitHeadingError pi tb wpts.prev_wp_ned wpts.curr_wp_ned
                wpts.curr_pos_ned inp.yaw)
              inp.actual_speed inp.mission_active inp.valid_waypoints))
          s.profile := rfl

theorem runGuidance_nil (pi : ℚ) (tb : ℚ × ℚ → ℚ × ℚ → ℚ × ℚ → ℚ)
    (p : GuidanceParams) (wpts : Waypoints) (s : GuidanceSysState) :
    runGuidance pi tb p wpts s [] = s := rfl

theorem runGuidance_cons (pi : ℚ) (tb : ℚ × ℚ → ℚ × ℚ → ℚ × ℚ → ℚ)
    (p : GuidanceParams) (wpts : Waypoints) (s : GuidanceSysState)
    (i : GuidanceInput) (t : List GuidanceInput) :
    runGuidance pi tb p wpts s (i :: t)
      = runGuidance pi tb p wpts ((computeGuidance pi tb p wpts s i).1) t := rfl

theorem runGuidance_accel_bound (pi : ℚ) (tb : ℚ × ℚ → ℚ × ℚ → ℚ × ℚ → ℚ)
    (p : GuidanceParams) (wpts : Waypoints) (hA : 0 ≤ p.max_accel) (hJ : 0 ≤ p.max_jerk)
    (s : GuidanceSysState) (hs : |s.profile.accel| ≤ p.max_accel)
    (trace : List GuidanceInput) (hdts : ∀ i ∈ trace, 0 ≤ i.dt) :
    |(runGuidance pi tb p wpts s trace).profile.accel| ≤ p.max_accel := by
  induction trace generalizing s with
  | nil => exact hs
  | cons i t ih =>
      rw [runGuidance_cons]
      apply ih
      · rw [computeGuidance_profile]
        exact speedProfileStep_accel_bound _ hA hJ (hdts i (List.mem_cons_self i t)) _ hs
      · intro j hj
        exact hdts j (List.mem_cons_of_mem _ hj)

theorem purePursuitHeadingError_mem {pi : ℚ} (tb : ℚ × ℚ → ℚ × ℚ → ℚ × ℚ → ℚ)
    (prevNed currNed posNed : ℚ × ℚ) (yaw : ℚ) (hpi : 0 < pi) :
    -pi < purePursuitHeadingError pi tb prevNed currNed posNed yaw ∧
      purePursuitHeadingError pi tb prevNed currNed posNed yaw ≤ pi := by
  unfold purePursuitHeadingError
  split
  · exact ⟨by linarith, by linarith⟩
  · exact wrapToPi_mem _ hpi

theorem guidanceOutput_bounds (p : GuidanceParams) (s : GuidanceState)
    (heading_error dt actual_speed : ℚ) (prof : SpeedProfile) (pid_h pid_t : PIState)
    (hmyr : 0 ≤ p.max_yaw_rate) :
    (-1 ≤ (guidanceOutput p s heading_error dt actual_speed prof pid_h pid_t).1.throttle ∧
      (guidanceOutput p s heading_error dt actual_speed prof pid_h pid_t).1.throttle ≤ 1) ∧
    |(guidanceOutput p s heading_error dt actual_speed prof pid_h pid_t).1.yaw_rate|
      ≤ p.max_yaw_rate := by
  cases s with
  | STOPPED =>
      refine ⟨⟨by norm_num [guidanceOutput], by norm_num [guidanceOutput]⟩, ?_⟩
      show |(0:ℚ)| ≤ p.max_yaw_rate
      simpa using hmyr
  | SPOT_TURNING =>
      refine ⟨⟨by norm_num [guidanceOutput], by norm_num [guidanceOutput]⟩, ?_⟩
      show |constrain _ (-p.max_yaw_rate) p.max_yaw_rate| ≤ p.max_yaw_rate
      exact abs_constrain _ _ hmyr
  | DRIVING =>
      have h := constrain_le
        (p.p_gain_speed * (prof.speed - actual_speed) + p.i_gain_speed * pid_t.integral)
        (show (-1:ℚ) ≤ 1 by norm_num)
      refine ⟨⟨h.1, h.2⟩, ?_⟩
      show |constrain _ (-p.max_yaw_rate) p.max_yaw_rate| ≤ p.max_yaw_rate
      exact abs_constrain _ _ hmyr

theorem stateTransition_driving_stay (p : GuidanceParams) (err speed : ℚ)
    (h : |err| < p.trans_drv_trn ∨ TURN_MAX_VELOCITY ≤ speed) :
    stateTransition p .DRIVING err speed true true = .DRIVING := by
  show (if p.trans_drv_trn ≤ |err| ∧ speed < TURN_MAX_VELOCITY then GuidanceState.SPOT_TURNING
    else GuidanceState.DRIVING) = GuidanceState.DRIVING
  rw [if_neg]
  rcases h with h | h
  · exact fun hc => absurd hc.1 (not_le.mpr h)
  · exact fun hc => absurd hc.2 (not_lt.mpr h)

theorem stateTransition_driving_turn (p : GuidanceParams) (err speed : ℚ)
    (h1 : p.trans_drv_trn ≤ |err|) (h2 : speed < TURN_MAX_VELOCITY) :
    stateTransition p .DRIVING err speed true true = .SPOT_TURNING := by
  show (if p.trans_drv_trn ≤ |err| ∧ speed < TURN_MAX_VELOCITY then GuidanceState.SPOT_TURNING
    else GuidanceState.DRIVING) = GuidanceState.SPOT_TURNING
  rw [if_pos ⟨h1, h2⟩]

theorem stateTransition_spot_stay (p : GuidanceParams) (err speed : ℚ)
    (h : p.trans_trn_drv < |err|) :
    stateTransition p .SPOT_TURNING err speed true true = .SPOT_TURNING := by
  show (if |err| ≤ p.trans_trn_drv then GuidanceState.DRIVING
    else GuidanceState.SPOT_TURNING) = GuidanceState.SPOT_TURNING
  rw [if_neg (not_le.mpr h)]

theorem stateTransition_spot_exit (p : GuidanceParams) (err speed : ℚ)
    (h : |err| ≤ p.trans_trn_drv) :
    stateTransition p .SPOT_TURNING err speed true true = .DRIVING := by
  show (if |err| ≤ p.trans_trn_drv then GuidanceState.DRIVING
    else GuidanceState.SPOT_TURNING) = GuidanceState.DRIVING
  rw [if_pos h]

theorem hysteresis_fold (p : GuidanceParams) (s : GuidanceState) (trace : List (ℚ × ℚ))
    (hs : s = .DRIVING ∨ s = .SPOT_TURNING)
    (htrace : ∀ e ∈ trace, p.trans_trn_drv < |e.1| ∧ |e.1| < p.trans_drv_trn) :
    trace.foldl (fun st e => stateTransition p st e.1 e.2 true true) s = s := by
  induction trace with
  | nil => rfl
  | cons e t ih =>
      have hstep : stateTransition p s e.1 e.2 true true = s := by
        have he := htrace e (List.mem_cons_self e t)
        rcases hs with h | h <;> subst h
        · exact stateTransition_driving_stay p e.1 e.2 (Or.inl he.2)
        · exact stateTransition_spot_stay p e.1 e.2 he.1
      simp only [List.foldl_cons, hstep]
      exact ih (fun e he => htrace e (List.mem_cons_of_mem _ he))

/-- C1: for every state of the guidance instance and every cycle, the returned
`differential_setpoint` has `throttle ∈ [-1, 1]` and `|yaw_rate|` at most the
configured maximum yaw rate (assumed nonnegative, as configuration limits are
range-clamped before reaching the core). -/
theorem C1_setpoint_bounds (pi : ℚ) (tb : ℚ × ℚ → ℚ × ℚ → ℚ × ℚ → ℚ)
    (p : GuidanceParams) (wpts : Waypoints) (s : GuidanceSysState) (inp : GuidanceInput)
    (hmyr : 0 ≤ p.max_yaw_rate) :
    (-1 ≤ (computeGuidance pi tb p wpts s inp).2.1.throttle ∧
      (computeGuidance pi tb p wpts s inp).2.1.throttle ≤ 1) ∧
    |(computeGuidance pi tb p wpts s inp).2.1.yaw_rate| ≤ p.max_yaw_rate :=
  guidanceOutput_bounds p
    (stateTransition p s.currentState
      (purePursuitHeadingError pi tb wpts.prev_wp_ned wpts.curr_wp_ned
        wpts.curr_pos_ned inp.yaw)
      inp.actual_speed inp.mission_active inp.valid_waypoints)
    (purePursuitHeadingError pi tb wpts.prev_wp_ned wpts.curr_wp_ned
      wpts.curr_pos_ned inp.yaw)
    inp.dt inp.actual_speed
    (speedProfileStep p.max_accel p.max_jerk inp.dt
      (targetSpeed p
        (purePursuitHeadingError pi tb wpts.prev_wp_ned wpts.curr_wp_ned
          wpts.curr_pos_ned inp.yaw)
        inp.mission_speed
        (stateTransition p s.currentState
          (purePursuitHeadingError pi tb wpts.prev_wp_ned wpts.curr_wp_ned
            wpts.curr_pos_ned inp.yaw)
          inp.actual_speed inp.mission_active inp.valid_waypoints))
      s.profile)
    s.pid_heading s.pid_throttle hmyr

theorem C1_witness :
    0 ≤ sampleParams.max_yaw_rate ∧
    ((-1 ≤ (computeGuidance 4 sampleBearing sampleParams sampleWaypoints initialState
        sampleInput).2.1.throttle ∧
      (computeGuidance 4 sampleBearing sampleParams sampleWaypoints initialState
        sampleInput).2.1.throttle ≤ 1) ∧
    |(computeGuidance 4 sampleBearing sampleParams sampleWaypoints initialState
        sampleInput).2.1.yaw_rate| ≤ sampleParams.max_yaw_rate) :=
  ⟨by norm_num [sampleParams],
   C1_setpoint_bounds 4 sampleBearing sampleParams sampleWaypoints initialState sampleInput
     (by norm_num [sampleParams])⟩

/-- C2: on every cycle whose (post-transition) state is STOPPED the returned
setpoint is all zero and open loop; on every cycle whose state is
SPOT_TURNING the throttle is zero and the yaw rate is closed loop. -/
theorem C2_state_output_policy (pi : ℚ) (tb : ℚ × ℚ → ℚ × ℚ → ℚ × ℚ → ℚ)
    (p : GuidanceParams) (wpts : Waypoints) (s : GuidanceSysState) (inp : GuidanceInput) :
    ((computeGuidance pi tb p wpts s inp).1.currentState = .STOPPED →
      (computeGuidance pi tb p wpts s inp).2.1
        = { throttle := 0, yaw_rate := 0, closed_loop_yaw_rate := false }) ∧
    ((computeGuidance pi tb p wpts s inp).1.currentState = .SPOT_TURNING →
      (computeGuidance pi tb p wpts s inp).2.1.throttle = 0 ∧
      (computeGuidance pi tb p wpts s inp).2.1.closed_loop_yaw_rate = true) := by
  have key : ∀ (st : GuidanceState) (err dt asp : ℚ) (prof : SpeedProfile) (ph pt : PIState),
      (st = .STOPPED → (guidanceOutput p st err dt asp prof ph pt).1
        = { throttle := 0, yaw_rate := 0, closed_loop_yaw_rate := false }) ∧
      (st = .SPOT_TURNING → (guidanceOutput p st err dt asp prof ph pt).1.throttle = 0 ∧
        (guidanceOutput p st err dt asp prof ph pt).1.closed_loop_yaw_rate = true) := by
    intro st err dt asp prof ph pt
    cases st <;> simp [guidanceOutput]
  exact key
    (stateTransition p s.currentState
      (purePursuitHeadingError pi tb wpts.prev_wp_ned wpts.curr_wp_ned
        wpts.curr_pos_ned inp.yaw)
      inp.actual_speed inp.mission_active inp.valid_waypoints)
    (purePursuitHeadingError pi tb wpts.prev_wp_ned wpts.curr_wp_ned
      wpts.curr_pos_ned inp.yaw)
    inp.dt inp.actual_speed
    (speedProfileStep p.max_accel p.max_jerk inp.dt
      (targetSpeed p
        (purePursuitHeadingError pi tb wpts.prev_wp_ned wpts.curr_wp_ned
          wpts.curr_pos_ned inp.yaw)
        inp.mission_speed
        (stateTransition p s.currentState
          (purePursuitHeadingError pi tb wpts.prev_wp_ned wpts.curr_wp_ned
            wpts.curr_pos_ned inp.yaw)
          inp.actual_speed inp.mission_active inp.valid_waypoints))
      s.profile)
    s.pid_heading s.pid_throttle

theorem sample_heading_error_eq_three :
    purePursuitHeadingError 4 sampleBearing sampleWaypoints.prev_wp_ned
      sampleWaypoints.curr_wp_ned sampleWaypoints.curr_pos_ned sampleInput.yaw = 3 := by
  have hne : sampleWaypoints.prev_wp_ned ≠ sampleWaypoints.curr_wp_ned := by
    simp only [sampleWaypoints]
    intro h
    have := congrArg Prod.fst h
    norm_num at this
  unfold purePursuitHeadingError
  rw [if_neg hne]
  show wrapToPi 4 (3 - sampleInput.yaw) = 3
  have hyaw : sampleInput.yaw = 0 := rfl
  rw [hyaw]
  unfold wrapToPi
  have hceil : (⌈((3:ℚ) - 0 - 4) / (2 * 4)⌉ : ℤ) = 0 := by
    norm_num [Int.ceil_eq_iff]
  rw [hceil]
  norm_num

theorem sample_spot_turning :
    (computeGuidance 4 sampleBearing sampleParams sampleWaypoints initialState
      sampleInput).1.currentState = .SPOT_TURNING := by
  have hstep : (computeGuidance 4 sampleBearing sampleParams sampleWaypoints initialState
      sampleInput).1.currentState
      = stateTransition sampleParams .DRIVING
          (purePursuitHeadingError 4 sampleBearing sampleWaypoints.prev_wp_ned
            sampleWaypoints.curr_wp_ned sampleWaypoints.curr_pos_ned sampleInput.yaw)
          sampleInput.actual_speed true true := rfl
  rw [hstep, sample_heading_error_eq_three]
  apply stateTransition_driving_turn
  · rw [show |(3:ℚ)| = 3 from abs_of_nonneg (by norm_num)]
    norm_num [sampleParams]
  · norm_num [sampleInput, TURN_MAX_VELOCITY]

theorem C2_witness :
    ((computeGuidance 4 sampleBearing sampleParams sampleWaypoints initialState
        sampleInputStopped).1.currentState = .STOPPED ∧
      (computeGuidance 4 sampleBearing sampleParams sampleWaypoints initialState
        sampleInputStopped).2.1
        = { throttle := 0, yaw_rate := 0, closed_loop_yaw_rate := false }) ∧
    ((computeGuidance 4 sampleBearing sampleParams sampleWaypoints initialState
        sampleInput).1.currentState = .SPOT_TURNING ∧
      (computeGuidance 4 sampleBearing sampleParams sampleWaypoints initialState
        sampleInput).2.1.throttle = 0 ∧
      (computeGuidance 4 sampleBearing sampleParams sampleWaypoints initialState
        sampleInput).2.1.closed_loop_yaw_rate = true) := by
  have hstopped : (computeGuidance 4 sampleBearing sampleParams sampleWaypoints initialState
      sampleInputStopped).1.currentState = .STOPPED := rfl
  have hspot := sample_spot_turning
  refine ⟨⟨hstopped, ?_⟩, ⟨hspot, ?_, ?_⟩⟩
  · exact (C2_state_output_policy 4 sampleBearing sampleParams sampleWaypoints initialState
      sampleInputStopped).1 hstopped
  · exact ((C2_state_output_policy 4 sampleBearing sampleParams sampleWaypoints initialState
      sampleInput).2 hspot).1
  · exact ((C2_state_output_policy 4 sampleBearing sampleParams sampleWaypoints initialState
      sampleInput).2 hspot).2

/-- C3: the state machine is hysteretic.  With drive-to-turn threshold
`trans_drv_trn` and turn-to-drive threshold `trans_trn_drv` (the former
configured larger), any heading-error trajectory whose magnitude stays
strictly between the two thresholds never toggles the state; DRIVING persists
while |heading error| is below the drive-to-turn threshold or the speed is at
least `TURN_MAX_VELOCITY`, and breaks into SPOT_TURNING when both conditions
are met; SPOT_TURNING persists while |heading error| is above the
turn-to-drive threshold and exits to DRIVING once at or below it. -/
theorem C3_hysteresis (p : GuidanceParams) (hθ : p.trans_trn_drv < p.trans_drv_trn) :
    (∀ (s : GuidanceState) (trace : List (ℚ × ℚ)),
        (s = .DRIVING ∨ s = .SPOT_TURNING) →
        (∀ e ∈ trace, p.trans_trn_drv < |e.1| ∧ |e.1| < p.trans_drv_trn) →
        trace.foldl (fun st e => stateTransition p st e.1 e.2 true true) s = s) ∧
    (∀ err speed : ℚ, |err| < p.trans_drv_trn →
        stateTransition p .DRIVING err speed true true = .DRIVING) ∧
    (∀ err speed : ℚ, TURN_MAX_VELOCITY ≤ speed →
        stateTransition p .DRIVING err speed true true = .DRIVING) ∧
    (∀ err speed : ℚ, p.trans_drv_trn ≤ |err| → speed < TURN_MAX_VELOCITY →
        stateTransition p .DRIVING err speed true true = .SPOT_TURNING) ∧
    (∀ err speed : ℚ, p.trans_trn_drv < |err| →
        stateTransition p .SPOT_TURNING err speed true true = .SPOT_TURNING) ∧
    (∀ err speed : ℚ, |err| ≤ p.trans_trn_drv →
        stateTransition p .SPOT_TURNING err speed true true = .DRIVING) :=
  ⟨fun s trace hs htrace => hysteresis_fold p s trace hs htrace,
   fun err speed h => stateTransition_driving_stay p err speed (Or.inl h),
   fun err speed h => stateTransition_driving_stay p err speed (Or.inr h),
   fun err speed h1 h2 => stateTransition_driving_turn p err speed h1 h2,
   fun err speed h => stateTransition_spot_stay p err speed h,
   fun err speed h => stateTransition_spot_exit p err speed h⟩

theorem C3_witness :
    sampleParams.trans_trn_drv < sampleParams.trans_drv_trn ∧
    (∀ e ∈ [((3:ℚ)/10, (0:ℚ)), (-1/4, 7)],
      sampleParams.trans_trn_drv < |e.1| ∧ |e.1| < sampleParams.trans_drv_trn) ∧
    [((3:ℚ)/10, (0:ℚ)), (-1/4, 7)].foldl
      (fun st e => stateTransition sampleParams st e.1 e.2 true true) .DRIVING = .DRIVING ∧
    [((3:ℚ)/10, (0:ℚ)), (-1/4, 7)].foldl
      (fun st e => stateTransition sampleParams st e.1 e.2 true true) .SPOT_TURNING
        = .SPOT_TURNING ∧
    stateTransition sampleParams .DRIVING (1/4) 0 true true = .DRIVING ∧
    stateTransition sampleParams .DRIVING 3 (1/5) true true = .DRIVING ∧
    stateTransition sampleParams .DRIVING 3 0 true true = .SPOT_TURNING ∧
    stateTransition sampleParams .SPOT_TURNING (1/4) 0 true true = .SPOT_TURNING ∧
    stateTransition sampleParams .SPOT_TURNING (1/20) 0 true true = .DRIVING := by
  have hθ : sampleParams.trans_trn_drv < sampleParams.trans_drv_trn := by
    norm_num [sampleParams]
  have htrace : ∀ e ∈ [((3:ℚ)/10, (0:ℚ)), (-1/4, 7)],
      sampleParams.trans_trn_drv < |e.1| ∧ |e.1| < sampleParams.trans_drv_trn := by
    intro e he
    fin_cases he
    · exact ⟨lt_abs.mpr (Or.inl (by norm_num [sampleParams])),
        abs_lt.mpr ⟨by norm_num [sampleParams], by norm_num [sampleParams]⟩⟩
    · exact ⟨lt_abs.mpr (Or.inr (by norm_num [sampleParams])),
        abs_lt.mpr ⟨by norm_num [sampleParams], by norm_num [sampleParams]⟩⟩
  have h := C3_hysteresis sampleParams hθ
  refine ⟨hθ, htrace, h.1 .DRIVING _ (Or.inl rfl) htrace, h.1 .SPOT_TURNING _ (Or.inr rfl) htrace,
    h.2.1 _ _ ?_, h.2.2.1 _ _ ?_, h.2.2.2.1 _ _ ?_ ?_, h.2.2.2.2.1 _ _ ?_, h.2.2.2.2.2 _ _ ?_⟩
  · rw [show |(1:ℚ)/4| = 1/4 from abs_of_nonneg (by norm_num)]
    norm_num [sampleParams]
  · norm_num [TURN_MAX_VELOCITY]
  · rw [show |(3:ℚ)| = 3 from abs_of_nonneg (by norm_num)]
    norm_num [sampleParams]
  · norm_num [TURN_MAX_VELOCITY]
  · rw [show |(1:ℚ)/4| = 1/4 from abs_of_nonneg (by norm_num)]
    norm_num [sampleParams]
  · rw [show |(1:ℚ)/20| = 1/20 from abs_of_nonneg (by norm_num)]
    norm_num [sampleParams]

/-- C4: on every cycle the heading error computed by the pure-pursuit step is
the value reported in the status record, and it lies in the half-open
interval (−pi, pi]. -/
theorem C4_heading_error_range (pi : ℚ) (tb : ℚ × ℚ → ℚ × ℚ → ℚ × ℚ → ℚ)
    (p : GuidanceParams) (wpts : Waypoints) (s : GuidanceSysState) (inp : GuidanceInput)
    (hpi : 0 < pi) :
    (computeGuidance pi tb p wpts s inp).2.2.heading_error
      = purePursuitHeadingError pi tb wpts.prev_wp_ned wpts.curr_wp_ned
          wpts.curr_pos_ned inp.yaw ∧
    -pi < (computeGuidance pi tb p wpts s inp).2.2.heading_error ∧
    (computeGuidance pi tb p wpts s inp).2.2.heading_error ≤ pi := by
  have h := purePursuitHeadingError_mem tb wpts.prev_wp_ned wpts.curr_wp_ned
    wpts.curr_pos_ned inp.yaw hpi
  exact ⟨rfl, h.1, h.2⟩

theorem C4_witness :
    (0:ℚ) < 4 ∧
    ((computeGuidance 4 sampleBearing sampleParams sampleWaypoints initialState
        sampleInput).2.2.heading_error
      = purePursuitHeadingError 4 sampleBearing sampleWaypoints.prev_wp_ned
          sampleWaypoints.curr_wp_ned sampleWaypoints.curr_pos_ned sampleInput.yaw ∧
    -4 < (computeGuidance 4 sampleBearing sampleParams sampleWaypoints initialState
        sampleInput).2.2.heading_error ∧
    (computeGuidance 4 sampleBearing sampleParams sampleWaypoints initialState
        sampleInput).2.2.heading_error ≤ 4) :=
  ⟨by norm_num,
   C4_heading_error_range 4 sampleBearing sampleParams sampleWaypoints initialState
     sampleInput (by norm_num)⟩

/-- C5: starting from the initial guidance state, after any trajectory of
cycles with nonnegative time steps the speed-profile state of the next cycle
(time step dt > 0) satisfies |commanded accel| ≤ max_accel, the accel changes
by at most max_jerk·dt over the cycle (|Δaccel|/dt ≤ max_jerk), and the
commanded speed is never negative. -/
theorem C5_speed_profile_bounds (pi : ℚ) (tb : ℚ × ℚ → ℚ × ℚ → ℚ × ℚ → ℚ)
    (p : GuidanceParams) (wpts : Waypoints) (trace : List GuidanceInput)
    (inp : GuidanceInput) (hA : 0 ≤ p.max_accel) (hJ : 0 ≤ p.max_jerk)
    (hdts : ∀ i ∈ trace, 0 ≤ i.dt) (hdt : 0 < inp.dt) :
    |((computeGuidance pi tb p wpts (runGuidance pi tb p wpts initialState trace)
        inp).1).profile.accel| ≤ p.max_accel ∧
    |((computeGuidance pi tb p wpts (runGuidance pi tb p wpts initialState trace)
        inp).1).profile.accel
      - (runGuidance pi tb p wpts initialState trace).profile.accel| / inp.dt
        ≤ p.max_jerk ∧
    0 ≤ ((computeGuidance pi tb p wpts (runGuidance pi tb p wpts initialState trace)
        inp).1).profile.speed := by
  have hinit : |initialState.profile.accel| ≤ p.max_accel := by
    show |(0:ℚ)| ≤ p.max_accel
    simpa using hA
  have hreach := runGuidance_accel_bound pi tb p wpts hA hJ initialState hinit trace hdts
  refine ⟨?_, ?_, ?_⟩
  · rw [computeGuidance_profile]
    exact speedProfileStep_accel_bound _ hA hJ (le_of_lt hdt) _ hreach
  · rw [div_le_iff₀ hdt, computeGuidance_profile]
    exact speedProfileStep_jerk _ hJ (le_of_lt hdt) _
  · rw [computeGuidance_profile]
    exact speedProfileStep_speed_nonneg _ _ _ _ _

theorem C5_witness :
    (0 ≤ sampleParams.max_accel ∧ 0 ≤ sampleParams.max_jerk ∧
      (∀ i ∈ ([] : List GuidanceInput), 0 ≤ i.dt) ∧ 0 < sampleInput.dt) ∧
    (|((computeGuidance 4 sampleBearing sampleParams sampleWaypoints
        (runGuidance 4 sampleBearing sampleParams sampleWaypoints initialState [])
        sampleInput).1).profile.accel| ≤ sampleParams.max_accel ∧
    |((computeGuidance 4 sampleBearing sampleParams sampleWaypoints
        (runGuidance 4 sampleBearing sampleParams sampleWaypoints initialState [])
        sampleInput).1).profile.accel
      - (runGuidance 4 sampleBearing sampleParams sampleWaypoints initialState
          []).profile.accel| / sampleInput.dt ≤ sampleParams.max_jerk ∧
    0 ≤ ((computeGuidance 4 sampleBearing sampleParams sampleWaypoints
        (runGuidance 4 sampleBearing sampleParams sampleWaypoints initialState [])
        sampleInput).1).profile.speed) :=
  ⟨⟨by norm_num [sampleParams], by norm_num [sampleParams], by simp,
    by norm_num [sampleInput]⟩,
   C5_speed_profile_bounds 4 sampleBearing sampleParams sampleWaypoints [] sampleInput
     (by norm_num [sampleParams]) (by norm_num [sampleParams]) (by simp)
     (by norm_num [sampleInput])⟩

/-- C6: when the previous NED waypoint equals the current NED waypoint (a
zero-length path segment), the cycle reports heading error 0 and its entire
result is independent of the bearing geometry, so no division by zero or NaN
from the degenerate geometry can propagate. -/
theorem C6_degenerate_segment (pi : ℚ) (tb tb2 : ℚ × ℚ → ℚ × ℚ → ℚ × ℚ → ℚ)
    (p : GuidanceParams) (wpts : Waypoints) (s : GuidanceSysState) (inp : GuidanceInput)
    (h : wpts.prev_wp_ned = wpts.curr_wp_ned) :
    (computeGuidance pi tb p wpts s inp).2.2.heading_error = 0 ∧
    computeGuidance pi tb p wpts s inp = computeGuidance pi tb2 p wpts s inp := by
  have herr : ∀ tbx : ℚ × ℚ → ℚ × ℚ → ℚ × ℚ → ℚ,
      purePursuitHeadingError pi tbx wpts.prev_wp_ned wpts.curr_wp_ned
        wpts.curr_pos_ned inp.yaw = 0 := by
    intro tbx
    unfold purePursuitHeadingError
    rw [if_pos h]
  constructor
  · show purePursuitHeadingError pi tb wpts.prev_wp_ned wpts.curr_wp_ned
      wpts.curr_pos_ned inp.yaw = 0
    exact herr tb
  · simp only [computeGuidance, herr]

theorem C6_witness :
    sampleWaypointsDegenerate.prev_wp_ned = sampleWaypointsDegenerate.curr_wp_ned ∧
    ((computeGuidance 4 sampleBearing sampleParams sampleWaypointsDegenerate initialState
        sampleInput).2.2.heading_error = 0 ∧
    computeGuidance 4 sampleBearing sampleParams sampleWaypointsDegenerate initialState
        sampleInput
      = computeGuidance 4 sampleBearingAlt sampleParams sampleWaypointsDegenerate
          initialState sampleInput) :=
  ⟨rfl,
   C6_degenerate_segment 4 sampleBearing sampleBearingAlt sampleParams
     sampleWaypointsDegenerate initialState sampleInput rfl⟩

/-- C7: the declared signature of the per-cycle compute operation does not
receive the elapsed time dt from the caller — its parameter list is exactly
(yaw, actual_speed, nav_state) — even though the function's own doc comment
documents a dt parameter, and the class keeps an `hrt_abstime _timestamp`
member with which the implementation derives dt from a clock. -/
theorem C7_dt_not_a_parameter :
    "dt" ∉ computeGuidance_declared_params ∧
    computeGuidance_declared_params = ["yaw", "actual_speed", "nav_state"] ∧
    "dt" ∈ computeGuidance_doc_params ∧
    "_timestamp" ∈ member_variables := by
  refine ⟨?_, rfl, ?_, ?_⟩ <;> decide

/-- C8: the guidance state is the closed three-valued enumeration
{SPOT_TURNING, DRIVING, STOPPED}; the initial state is DRIVING; and over a
cycle the state is mutated exactly by the state-machine transition evaluated
on that cycle's heading error, speed and mode signals. -/
theorem C8_state_enum_and_mutation :
    (∀ g : GuidanceState, g = .SPOT_TURNING ∨ g = .DRIVING ∨ g = .STOPPED) ∧
    initialState.currentState = .DRIVING ∧
    ∀ (pi : ℚ) (tb : ℚ × ℚ → ℚ × ℚ → ℚ × ℚ → ℚ) (p : GuidanceParams)
      (wpts : Waypoints) (s : GuidanceSysState) (inp : GuidanceInput),
      (computeGuidance pi tb p wpts s inp).1.currentState
        = stateTransition p s.currentState
            (purePursuitHeadingError pi tb wpts.prev_wp_ned wpts.curr_wp_ned
              wpts.curr_pos_ned inp.yaw)
            inp.actual_speed inp.mission_active inp.valid_waypoints := by
  refine ⟨fun g => ?_, rfl, fun _ _ _ _ _ _ => rfl⟩
  cases g
  · exact Or.inl rfl
  · exact Or.inr (Or.inl rfl)
  · exact Or.inr (Or.inr rfl)

/-- C9 counterexample: the class has no NED member for the next waypoint or
the home position — the header stores `_next_wp` and `_home_position` as
geodetic `Vector2d` only, so a refresh cannot (re)project all five points
into planar coordinates as the claim states. -/
theorem C9_counterexample :
    "_next_wp_ned" ∉ member_variables ∧
    "_home_position_ned" ∉ member_variables ∧
    "_next_wp" ∈ member_variables ∧
    "_home_position" ∈ member_variables ∧
    "_prev_wp_ned" ∈ member_variables ∧
    "_curr_wp_ned" ∈ member_variables ∧
    "_curr_pos_ned" ∈ member_variables := by
  refine ⟨?_, ?_, ?_, ?_, ?_, ?_, ?_⟩ <;> decide

/-- C9 (amended): on each waypoint refresh the previous and current waypoints
(after invalid-value substitution by the vehicle position) and the vehicle
position are (re)projected into planar NED coordinates; the next waypoint and
the home position are stored in geodetic coordinates only, with no NED
counterpart in the class state. -/
theorem C9_refresh_projections (proj : GeoPoint → ℚ × ℚ) (inp : WaypointInputs) :
    (updateWaypoints proj inp).prev_wp_ned = proj (inp.prev.getD inp.vehicle_pos) ∧
    (updateWaypoints proj inp).curr_wp_ned = proj (inp.curr.getD inp.vehicle_pos) ∧
    (updateWaypoints proj inp).curr_pos_ned = proj inp.vehicle_pos ∧
    (updateWaypoints proj inp).next_wp = inp.next.getD inp.vehicle_pos ∧
    (updateWaypoints proj inp).home_position = inp.home ∧
    "_next_wp_ned" ∉ member_variables ∧
    "_home_position_ned" ∉ member_variables :=
  ⟨rfl, rfl, rfl, rfl, rfl, by decide, by decide⟩

/-- C10: the turn-velocity threshold of the DRIVING→SPOT_TURNING transition is
the compile-time constant 0.2 m/s (the rational 1/5); it is not among the
twelve configuration parameters of the component; and the transition fires
exactly when |heading error| reaches the drive-to-turn threshold while the
speed is below this constant. -/
theorem C10_turn_velocity_threshold :
    TURN_MAX_VELOCITY = 1/5 ∧
    "TURN_MAX_VELOCITY" ∉ guidance_parameter_names ∧
    guidance_parameter_names.length = 12 ∧
    guidance_parameter_names =
      ["RD_HEADING_P", "RD_HEADING_I", "RD_SPEED_P", "RD_SPEED_I",
       "RD_MAX_SPEED", "NAV_ACC_RAD", "RD_MAX_JERK", "RD_MAX_ACCEL",
       "RD_MISS_SPD_DEF", "RD_MAX_YAW_RATE", "RD_TRANS_TRN_DRV", "RD_TRANS_DRV_TRN"] ∧
    ∀ (p : GuidanceParams) (err speed : ℚ),
      stateTransition p .DRIVING err speed true true = .SPOT_TURNING ↔
        (p.trans_drv_trn ≤ |err| ∧ speed < TURN_MAX_VELOCITY) := by
  refine ⟨rfl, by decide, by decide, rfl, fun p err speed => ?_⟩
  show (if p.trans_drv_trn ≤ |err| ∧ speed < TURN_MAX_VELOCITY then GuidanceState.SPOT_TURNING
    else GuidanceState.DRIVING) = GuidanceState.SPOT_TURNING ↔ _
  split
  · next h => simp [h]
  · next h => simp [h]
